import Mathlib

/-!
Verification of the fleet polling and aggregation engine of the Xandeum
pNode analytics dashboard (`src/components/Dashboard.tsx`).

The engine is shallowly embedded: JavaScript numbers carrying CPU/memory
percentages are modelled as rationals, byte counts and timestamps as
naturals, optional/nullable fields as `Option`, and a settled JavaScript
promise as the `Settled` type below.  `Promise.allSettled` is modelled by
`promiseAllSettled`: per the JS specification it returns the settled
results in input order, independent of each promise's completion time.
-/

/-- A settled JavaScript promise: fulfilled with a value, or rejected with
a reason.  A rejection reason of `some m` is an `Error` whose `.message`
is `m`; `none` stands for a thrown non-`Error` value. -/
inductive Settled (α : Type) where
  | fulfilled (value : α)
  | rejected (reason : Option String)
  deriving DecidableEq

/-- `getStats` result (Dashboard.tsx 23-29).  Percentages are rationals,
byte counts and seconds are naturals. -/
structure NodeStats where
  cpu_percent : ℚ
  memory_percent : ℚ
  storage_used : ℕ
  storage_percent : ℚ
  uptime : ℕ
  deriving DecidableEq

/-- One entry of a `getPods` result (Dashboard.tsx 31-35). -/
structure PodInfo where
  pubkey : String
  ip : Option String
  gossip_port : Option ℕ
  deriving DecidableEq

/-- `getPods` result (Dashboard.tsx 37-40). -/
structure PodsResponse where
  total_count : ℕ
  pods : List PodInfo
  deriving DecidableEq

/-- Node status enumeration (Dashboard.tsx 45). -/
inductive NodeStatus where
  | online
  | offline
  | degraded
  deriving DecidableEq

/-- A node snapshot (Dashboard.tsx 42-52).  `error` is the optional
`error?` field; `lastSeen` is a millisecond timestamp. -/
structure PNode where
  id : String
  ip : String
  status : NodeStatus
  stats : Option NodeStats
  version : String
  gossipPort : ℕ
  pubkey : Option String
  lastSeen : Option ℕ
  error : Option String
  deriving DecidableEq

/-- Protocol-level error object of an RPC envelope (Dashboard.tsx 58-61). -/
structure RpcError where
  code : ℤ
  message : String
  deriving DecidableEq

/-- RPC response envelope (Dashboard.tsx 54-62). -/
structure RpcResponse (T : Type) where
  jsonrpc : String
  id : ℕ
  result : Option T
  error : Option RpcError
  deriving DecidableEq

/-- Outcome of `rpcCall` once an envelope has been received: either the
typed result is returned, or an `Error` with the given message is thrown. -/
inductive RpcOutcome (T : Type) where
  | ok (value : T)
  | thrown (message : String)
  deriving DecidableEq

/-- Envelope validation of `rpcCall` (Dashboard.tsx 112-122): a present
`error` field throws an `Error` carrying the remote message; an absent
`result` throws `Error("No result in response")`; otherwise the typed
result is returned. -/
def rpcHandleResponse {T : Type} (data : RpcResponse T) : RpcOutcome T :=
  match data.error with
  | some e => RpcOutcome.thrown e.message
  | none =>
    match data.result with
    | none => RpcOutcome.thrown "No result in response"
    | some v => RpcOutcome.ok v

/-- The value of a settled call as seen by `fetchNodeData`
(Dashboard.tsx 136-139): the fulfilled value, else `null`. -/
def settledValue {α : Type} (r : Settled α) : Option α :=
  match r with
  | Settled.fulfilled v => some v
  | Settled.rejected _ => none

/-- Status classification of `fetchNodeData` (Dashboard.tsx 141-146):
status starts as `online`; when stats are present and a threshold is
breached (CPU > 90 or memory > 95) it becomes `degraded`. -/
def classifyStats (stats : Option NodeStats) : NodeStatus :=
  match stats with
  | some s =>
    if s.cpu_percent > 90 ∨ s.memory_percent > 95 then NodeStatus.degraded
    else NodeStatus.online
  | none => NodeStatus.online

/-- `podsData?.pods?.[0]?.pubkey ?? null` (Dashboard.tsx 155). -/
def firstPubkey (podsData : Option PodsResponse) : Option String :=
  match podsData with
  | some pd => pd.pods.head?.map PodInfo.pubkey
  | none => none

/-- The try-block of `fetchNodeData` (Dashboard.tsx 130-157): the two
settled call outcomes are merged into one snapshot; `now` is the value of
`Date.now()` at line 156. -/
def fetchNodeDataSettled (ip : String) (statsResult : Settled NodeStats)
    (podsResult : Settled PodsResponse) (now : ℕ) : PNode :=
  let stats := settledValue statsResult
  let podsData := settledValue podsResult
  { id := ip
    ip := ip
    status := classifyStats stats
    stats := stats
    version := "v0.8 Reinheim"
    gossipPort := 8001
    pubkey := firstPubkey podsData
    lastSeen := some now
    error := none }

/-- `error instanceof Error ? error.message : 'Connection failed'`
(Dashboard.tsx 168). -/
def errMessage (caught : Option String) : String :=
  match caught with
  | some m => m
  | none => "Connection failed"

/-- The catch-block of `fetchNodeData` (Dashboard.tsx 158-170): an
offline snapshot built from the caught value. -/
def fetchNodeDataCatch (ip : String) (caught : Option String) : PNode :=
  { id := ip
    ip := ip
    status := NodeStatus.offline
    stats := none
    version := "unknown"
    gossipPort := 8001
    pubkey := none
    lastSeen := none
    error := some (errMessage caught) }

/-- `fetchNodeData` (Dashboard.tsx 129-171).  `fault = some caught` means
the try-body threw `caught` and the catch-block answers; `fault = none`
means the try-body ran to completion.  In the running program the
try-body consists of `Promise.allSettled` (which never rejects) followed
by total field accesses, so `fault` is always `none`. -/
def fetchNodeData (ip : String) (fault : Option (Option String))
    (statsResult : Settled NodeStats) (podsResult : Settled PodsResponse)
    (now : ℕ) : PNode :=
  match fault with
  | some caught => fetchNodeDataCatch ip caught
  | none => fetchNodeDataSettled ip statsResult podsResult now

/-- `Promise.allSettled` over a list of tasks, each given as its eventual
settled result paired with its completion time: by the JS specification
the results come back in input order, and the completion times do not
influence the returned array. -/
def promiseAllSettled {α : Type} (tasks : List (Settled α × ℕ)) :
    List (Settled α) :=
  tasks.map Prod.fst

/-- The per-address fallback snapshot of `fetchData`'s fan-in
(Dashboard.tsx 386-396), used when a per-node poller task rejected. -/
def corsOffline (ip : String) : PNode :=
  { id := ip
    ip := ip
    status := NodeStatus.offline
    stats := none
    version := "unknown"
    gossipPort := 8001
    pubkey := none
    lastSeen := none
    error := some "Connection failed (CORS)" }

/-- Fan-in of `fetchData` (Dashboard.tsx 380-397): the settled per-node
tasks are collected by `Promise.allSettled` and mapped in input order,
with a rejected task at position `i` replaced by the offline fallback for
the address at position `i`. -/
def nodeResults (ips : List String) (tasks : String → Settled PNode × ℕ) :
    List PNode :=
  (promiseAllSettled (ips.map tasks)).zipWith
    (fun r ip =>
      match r with
      | Settled.fulfilled v => v
      | Settled.rejected _ => corsOffline ip)
    ips

/-- One polling round of `fetchData` (Dashboard.tsx 373-399): one
`fetchNodeData` task per configured address.  `fault` is the per-node
try-body fault of `fetchNodeData` (always `none` in the running program),
`sr`/`pr` the per-node settled call outcomes, `reject` a hypothetical
rejection of the whole per-node task (defended against at line 383),
`time` each task's completion time and `now` each node's `Date.now()`
reading. -/
def fleetRound (ips : List String) (fault : String → Option (Option String))
    (sr : String → Settled NodeStats) (pr : String → Settled PodsResponse)
    (reject : String → Option (Option String)) (time : String → ℕ)
    (now : String → ℕ) : List PNode :=
  nodeResults ips (fun ip =>
    (match reject ip with
     | some r => Settled.rejected r
     | none => Settled.fulfilled (fetchNodeData ip (fault ip) (sr ip) (pr ip) (now ip)),
     time ip))

/-- The all-offline fallback of `fetchData`'s catch-block
(Dashboard.tsx 404-416). -/
def allOfflineFallback (ips : List String) : List PNode :=
  ips.map (fun ip =>
    { id := ip
      ip := ip
      status := NodeStatus.offline
      stats := none
      version := "unknown"
      gossipPort := 8001
      pubkey := none
      lastSeen := none
      error := some "Connection failed" })

/-- JS `toLowerCase` on the characters of a string. -/
def strLower (s : String) : String :=
  String.mk (s.data.map Char.toLower)

/-- `charsIncludes hay needle` is JS `hay.includes(needle)` on character
lists: `needle` occurs contiguously somewhere in `hay`. -/
def charsIncludes (hay needle : List Char) : Bool :=
  match hay with
  | [] => needle.isEmpty
  | c :: t => needle.isPrefixOf (c :: t) || charsIncludes t needle

/-- JS `String.prototype.includes`. -/
def strIncludes (hay needle : String) : Bool :=
  charsIncludes hay.data needle.data

/-- Search predicate of `filteredNodes` (Dashboard.tsx 430-432): the
lowercased address, or the lowercased membership key when present,
contains the lowercased query; an absent key contributes nothing (the
optional chain yields `undefined`, which is falsy). -/
def matchesSearch (searchQuery : String) (node : PNode) : Bool :=
  strIncludes (strLower node.ip) (strLower searchQuery) ||
    (match node.pubkey with
     | some k => strIncludes (strLower k) (strLower searchQuery)
     | none => false)

/-- Status filter selection (Dashboard.tsx 367-369). -/
inductive StatusFilter where
  | all
  | online
  | offline
  | degraded
  deriving DecidableEq

/-- Status predicate of `filteredNodes` (Dashboard.tsx 433-434):
`statusFilter === 'all' || node.status === statusFilter`. -/
def filterMatchesStatus (f : StatusFilter) (s : NodeStatus) : Bool :=
  match f, s with
  | StatusFilter.all, _ => true
  | StatusFilter.online, NodeStatus.online => true
  | StatusFilter.offline, NodeStatus.offline => true
  | StatusFilter.degraded, NodeStatus.degraded => true
  | _, _ => false

/-- `filteredNodes` (Dashboard.tsx 429-436): both predicates combined
with `&&`. -/
def filteredNodes (nodes : List PNode) (searchQuery : String)
    (statusFilter : StatusFilter) : List PNode :=
  nodes.filter (fun node =>
    matchesSearch searchQuery node && filterMatchesStatus statusFilter node.status)

/-- The search criterion as the specification words it: a case-sensitive
substring match on the raw address and membership-key strings. -/
def specMatchesSearch (searchQuery : String) (node : PNode) : Bool :=
  strIncludes node.ip searchQuery ||
    (match node.pubkey with
     | some k => strIncludes k searchQuery
     | none => false)

/-- `nodes.filter((n) => n.stats !== null)` (Dashboard.tsx 441). -/
def nodesWithStats (nodes : List PNode) : List PNode :=
  nodes.filter (fun n => n.stats.isSome)

/-- `n.stats?.cpu_percent ?? 0` (Dashboard.tsx 445). -/
def statsCpu (n : PNode) : ℚ :=
  match n.stats with
  | some s => s.cpu_percent
  | none => 0

/-- `avgCpu` (Dashboard.tsx 442-448): mean of `cpu_percent` over the
nodes that returned stats, `0` when there are none. -/
def avgCpu (nodes : List PNode) : ℚ :=
  let ws := nodesWithStats nodes
  if ws.length > 0 then
    (ws.foldl (fun acc n => acc + statsCpu n) 0) / (ws.length : ℚ)
  else 0

/-- `n.stats?.storage_used ?? 0` (Dashboard.tsx 450). -/
def statsStorage (n : PNode) : ℕ :=
  match n.stats with
  | some s => s.storage_used
  | none => 0

/-- `totalStorage` (Dashboard.tsx 449-452). -/
def totalStorage (nodes : List PNode) : ℕ :=
  nodes.foldl (fun acc n => acc + statsStorage n) 0

/-- `onlineNodes` (Dashboard.tsx 439). -/
def onlineCount (nodes : List PNode) : ℕ :=
  (nodes.filter (fun n => n.status == NodeStatus.online)).length

/-- The numeric value behind `healthPercent` (Dashboard.tsx 453-454):
`(onlineNodes / totalNodes) * 100` when the fleet is non-empty, `0`
otherwise (`toFixed(0)` is display formatting only). -/
def healthPercent (nodes : List PNode) : ℚ :=
  if nodes.length > 0 then
    ((onlineCount nodes : ℚ) / (nodes.length : ℚ)) * 100
  else 0

/-- State of the poll-trigger scheduler: how many `fetchData` rounds are
in flight, and the React `isRefreshing` flag. -/
structure SchedState where
  active : ℕ
  isRefreshing : Bool
  deriving DecidableEq

/-- Poll triggers: a 30-second interval tick (Dashboard.tsx 425), a click
on the Refresh button (Dashboard.tsx 495-497), and the completion of an
in-flight round (the `finally` block, Dashboard.tsx 417-420). -/
inductive PollTrigger where
  | intervalTick
  | refreshClick
  | roundEnd
  deriving DecidableEq

/-- Trigger semantics from the source: `setInterval(fetchData, ...)`
invokes `fetchData` unconditionally; the Refresh button invokes it only
while not disabled (`disabled={isRefreshing}`); `fetchData` sets
`isRefreshing` on entry and clears it in `finally`. -/
def schedStep (s : SchedState) (t : PollTrigger) : SchedState :=
  match t with
  | PollTrigger.intervalTick => { active := s.active + 1, isRefreshing := true }
  | PollTrigger.refreshClick =>
    if s.isRefreshing then s
    else { active := s.active + 1, isRefreshing := true }
  | PollTrigger.roundEnd => { active := s.active - 1, isRefreshing := false }

/-- Run a sequence of triggers from a state. -/
def schedRun (s : SchedState) (ts : List PollTrigger) : SchedState :=
  ts.foldl schedStep s

/-- The idle dashboard: no round in flight. -/
def schedInit : SchedState :=
  { active := 0, isRefreshing := false }

/-- A concrete snapshot with an upper-case membership key, used to probe
the case sensitivity of the search predicate. -/
def nodeC7 : PNode :=
  { id := "173.212.220.65"
    ip := "173.212.220.65"
    status := NodeStatus.online
    stats := none
    version := "v0.8 Reinheim"
    gossipPort := 8001
    pubkey := some "ABC123"
    lastSeen := some 1700000000000
    error := none }

/-- A concrete snapshot with no membership key. -/
def nodeC7b : PNode :=
  { id := "161.97.151.101"
    ip := "161.97.151.101"
    status := NodeStatus.online
    stats := none
    version := "v0.8 Reinheim"
    gossipPort := 8001
    pubkey := none
    lastSeen := some 1700000000000
    error := none }

/-! ## Helper lemmas -/

lemma fetchNodeData_ip (ip : String) (fault : Option (Option String))
    (sr : Settled NodeStats) (pr : Settled PodsResponse) (now : ℕ) :
    (fetchNodeData ip fault sr pr now).ip = ip := by
  cases fault <;> rfl

lemma classifyStats_ne_offline (o : Option NodeStats) :
    classifyStats o ≠ NodeStatus.offline := by
  cases o with
  | none => simp [classifyStats]
  | some s =>
    simp only [classifyStats]
    split <;> simp

lemma fleetRound_cons (ip : String) (ips : List String)
    (fault : String → Option (Option String)) (sr : String → Settled NodeStats)
    (pr : String → Settled PodsResponse) (reject : String → Option (Option String))
    (time : String → ℕ) (now : String → ℕ) :
    fleetRound (ip :: ips) fault sr pr reject time now =
      (match reject ip with
       | some _ => corsOffline ip
       | none => fetchNodeData ip (fault ip) (sr ip) (pr ip) (now ip)) ::
        fleetRound ips fault sr pr reject time now := by
  cases h : reject ip <;>
    simp [fleetRound, nodeResults, promiseAllSettled, h]

lemma fleetRound_cons_ok (ip : String) (ips : List String)
    (fault : String → Option (Option String)) (sr : String → Settled NodeStats)
    (pr : String → Settled PodsResponse) (reject : String → Option (Option String))
    (time : String → ℕ) (now : String → ℕ) (h : reject ip = none) :
    fleetRound (ip :: ips) fault sr pr reject time now =
      fetchNodeData ip (fault ip) (sr ip) (pr ip) (now ip) ::
        fleetRound ips fault sr pr reject time now := by
  rw [fleetRound_cons, h]

lemma fleetRound_cons_rejected (ip : String) (ips : List String)
    (fault : String → Option (Option String)) (sr : String → Settled NodeStats)
    (pr : String → Settled PodsResponse) (reject : String → Option (Option String))
    (time : String → ℕ) (now : String → ℕ) (r : Option String)
    (h : reject ip = some r) :
    fleetRound (ip :: ips) fault sr pr reject time now =
      corsOffline ip :: fleetRound ips fault sr pr reject time now := by
  rw [fleetRound_cons, h]

lemma fleetRound_length (ips : List String)
    (fault : String → Option (Option String)) (sr : String → Settled NodeStats)
    (pr : String → Settled PodsResponse) (reject : String → Option (Option String))
    (time : String → ℕ) (now : String → ℕ) :
    (fleetRound ips fault sr pr reject time now).length = ips.length := by
  simp [fleetRound, nodeResults, promiseAllSettled]

lemma fleetRound_getElem? (ips : List String)
    (fault : String → Option (Option String)) (sr : String → Settled NodeStats)
    (pr : String → Settled PodsResponse) (reject : String → Option (Option String))
    (time : String → ℕ) (now : String → ℕ) (i : ℕ) :
    (fleetRound ips fault sr pr reject time now)[i]? =
      (ips[i]?).map (fun ip =>
        match reject ip with
        | some _ => corsOffline ip
        | none => fetchNodeData ip (fault ip) (sr ip) (pr ip) (now ip)) := by
  induction ips generalizing i with
  | nil => simp [fleetRound, nodeResults, promiseAllSettled]
  | cons ip rest ih =>
    rw [fleetRound_cons]
    cases i with
    | zero => simp
    | succ n => simpa using ih n

lemma fleetRound_time_indep (ips : List String)
    (fault : String → Option (Option String)) (sr : String → Settled NodeStats)
    (pr : String → Settled PodsResponse) (reject : String → Option (Option String))
    (time time' : String → ℕ) (now : String → ℕ) :
    fleetRound ips fault sr pr reject time now =
      fleetRound ips fault sr pr reject time' now := by
  induction ips with
  | nil => rfl
  | cons ip rest ih => rw [fleetRound_cons, fleetRound_cons, ih]

lemma foldl_add_rat (g : PNode → ℚ) (l : List PNode) (a : ℚ) :
    l.foldl (fun acc n => acc + g n) a = a + (l.map g).sum := by
  induction l generalizing a with
  | nil => simp
  | cons x xs ih => simp [ih, add_assoc]

lemma foldl_add_nat (g : PNode → ℕ) (l : List PNode) (a : ℕ) :
    l.foldl (fun acc n => acc + g n) a = a + (l.map g).sum := by
  induction l generalizing a with
  | nil => simp
  | cons x xs ih => simp [ih, Nat.add_assoc]

/-! ## Claim theorems -/

/-- C1 (code behavior at the failing input): when both RPC calls fail —
both promises rejected, e.g. both timed out — `fetchNodeData`'s settled
path still runs (`Promise.allSettled` never rejects), so the snapshot has
status `online`, not `offline`: stats and pubkey are absent, `lastSeen`
is set to the poll time and no error is recorded, contradicting the
claimed offline classification. -/
theorem claim_C1_code_behavior :
    fetchNodeData "173.212.220.65" none
        (Settled.rejected (some "Request timed out"))
        (Settled.rejected (some "Request timed out")) 1700000000000 =
      { id := "173.212.220.65"
        ip := "173.212.220.65"
        status := NodeStatus.online
        stats := none
        version := "v0.8 Reinheim"
        gossipPort := 8001
        pubkey := none
        lastSeen := some 1700000000000
        error := none } := by
  rfl

/-- C2: a fleet round yields exactly one snapshot per configured address,
the snapshot at position `i` carries the address at position `i`, and the
output is unchanged under any reassignment of per-node completion times. -/
theorem claim_C2_fleet_order (ips : List String)
    (fault : String → Option (Option String)) (sr : String → Settled NodeStats)
    (pr : String → Settled PodsResponse)
    (reject : String → Option (Option String)) (time time' : String → ℕ)
    (now : String → ℕ) :
    (fleetRound ips fault sr pr reject time now).length = ips.length ∧
    (∀ i : ℕ,
      ((fleetRound ips fault sr pr reject time now)[i]?).map PNode.ip = ips[i]?) ∧
    fleetRound ips fault sr pr reject time now =
      fleetRound ips fault sr pr reject time' now := by
  refine ⟨fleetRound_length _ _ _ _ _ _ _, ?_, fleetRound_time_indep _ _ _ _ _ _ _ _⟩
  intro i
  rw [fleetRound_getElem?]
  cases h : ips[i]? with
  | none => rfl
  | some ip =>
    cases hr : reject ip <;>
      simp [hr, corsOffline, fetchNodeData_ip]

/-- C3: the node poller is total — every combination of a try-body fault
and the two call outcomes yields exactly one snapshot, none escapes — and
at the fleet level each entry is determined by its own node alone: a
rejected per-node task becomes the offline fallback at its slot while
every other address keeps its own snapshot, so the round never fails or
loses entries. -/
theorem claim_C3_totality :
    (∀ (ip : String) (fault : Option (Option String)) (sr : Settled NodeStats)
        (pr : Settled PodsResponse) (now : ℕ),
      ∃! p : PNode, fetchNodeData ip fault sr pr now = p) ∧
    (∀ (ips : List String) (fault : String → Option (Option String))
        (sr : String → Settled NodeStats) (pr : String → Settled PodsResponse)
        (reject : String → Option (Option String)) (time now : String → ℕ),
      (fleetRound ips fault sr pr reject time now).length = ips.length ∧
      ∀ i : ℕ,
        (fleetRound ips fault sr pr reject time now)[i]? =
          (ips[i]?).map (fun ip =>
            match reject ip with
            | some _ => corsOffline ip
            | none => fetchNodeData ip (fault ip) (sr ip) (pr ip) (now ip))) := by
  refine ⟨fun ip fault sr pr now => ⟨fetchNodeData ip fault sr pr now, rfl, ?_⟩, ?_⟩
  · intro y hy
    exact hy.symm
  · intro ips fault sr pr reject time now
    exact ⟨fleetRound_length _ _ _ _ _ _ _, fun i => fleetRound_getElem? _ _ _ _ _ _ _ i⟩

/-- C4: the aggregator is total on every fleet snapshot, the empty one
included: mean CPU averages `cpu_percent` over exactly the nodes whose
stats are present and is 0 when there are none; total storage sums
`storage_used` with absent stats contributing 0; the health percentage
times the node count equals the online count times 100, and is 0 on the
empty fleet — no division by zero occurs anywhere. -/
theorem claim_C4_aggregate (nodes : List PNode) :
    ((nodesWithStats nodes).length = 0 → avgCpu nodes = 0) ∧
    ((nodesWithStats nodes).length ≠ 0 →
      avgCpu nodes * ((nodesWithStats nodes).length : ℚ) =
        ((nodesWithStats nodes).map statsCpu).sum) ∧
    totalStorage nodes = (nodes.map statsStorage).sum ∧
    (nodes.length = 0 → healthPercent nodes = 0) ∧
    (nodes.length ≠ 0 →
      healthPercent nodes * (nodes.length : ℚ) = (onlineCount nodes : ℚ) * 100) := by
  refine ⟨?_, ?_, ?_, ?_, ?_⟩
  · intro h
    simp [avgCpu, h]
  · intro h
    have hpos : 0 < (nodesWithStats nodes).length := Nat.pos_of_ne_zero h
    have hq : ((nodesWithStats nodes).length : ℚ) ≠ 0 := by
      exact_mod_cast h
    simp only [avgCpu, if_pos hpos]
    rw [foldl_add_rat, zero_add, div_mul_cancel₀ _ hq]
  · simpa using foldl_add_nat statsStorage nodes 0
  · intro h
    simp [healthPercent, h]
  · intro h
    have hpos : 0 < nodes.length := Nat.pos_of_ne_zero h
    have hq : (nodes.length : ℚ) ≠ 0 := by
      exact_mod_cast h
    simp only [healthPercent, if_pos hpos]
    field_simp

/-- C4 witness: a concrete three-node fleet (one online with stats, one
offline without stats, one degraded with stats) instantiating the
aggregate characterization with its hypotheses discharged. -/
theorem claim_C4_witness :
    ((nodesWithStats
        [{ id := "a", ip := "a", status := NodeStatus.online,
           stats := some ⟨20, 30, 512, 10, 1000⟩, version := "v0.8 Reinheim",
           gossipPort := 8001, pubkey := some "abc123", lastSeen := some 1,
           error := none },
         { id := "b", ip := "b", status := NodeStatus.offline, stats := none,
           version := "unknown", gossipPort := 8001, pubkey := none,
           lastSeen := none, error := some "Connection failed (CORS)" },
         { id := "c", ip := "c", status := NodeStatus.degraded,
           stats := some ⟨95, 40, 1024, 20, 2000⟩, version := "v0.8 Reinheim",
           gossipPort := 8001, pubkey := none, lastSeen := some 1,
           error := none }]).length ≠ 0) ∧
    avgCpu
        [{ id := "a", ip := "a", status := NodeStatus.online,
           stats := some ⟨20, 30, 512, 10, 1000⟩, version := "v0.8 Reinheim",
           gossipPort := 8001, pubkey := some "abc123", lastSeen := some 1,
           error := none },
         { id := "b", ip := "b", status := NodeStatus.offline, stats := none,
           version := "unknown", gossipPort := 8001, pubkey := none,
           lastSeen := none, error := some "Connection failed (CORS)" },
         { id := "c", ip := "c", status := NodeStatus.degraded,
           stats := some ⟨95, 40, 1024, 20, 2000⟩, version := "v0.8 Reinheim",
           gossipPort := 8001, pubkey := none, lastSeen := some 1,
           error := none }] *
      ((nodesWithStats
        [{ id := "a", ip := "a", status := NodeStatus.online,
           stats := some ⟨20, 30, 512, 10, 1000⟩, version := "v0.8 Reinheim",
           gossipPort := 8001, pubkey := some "abc123", lastSeen := some 1,
           error := none },
         { id := "b", ip := "b", status := NodeStatus.offline, stats := none,
           version := "unknown", gossipPort := 8001, pubkey := none,
           lastSeen := none, error := some "Connection failed (CORS)" },
         { id := "c", ip := "c", status := NodeStatus.degraded,
           stats := some ⟨95, 40, 1024, 20, 2000⟩, version := "v0.8 Reinheim",
           gossipPort := 8001, pubkey := none, lastSeen := some 1,
           error := none }]).length : ℚ) =
      ((nodesWithStats
        [{ id := "a", ip := "a", status := NodeStatus.online,
           stats := some ⟨20, 30, 512, 10, 1000⟩, version := "v0.8 Reinheim",
           gossipPort := 8001, pubkey := some "abc123", lastSeen := some 1,
           error := none },
         { id := "b", ip := "b", status := NodeStatus.offline, stats := none,
           version := "unknown", gossipPort := 8001, pubkey := none,
           lastSeen := none, error := some "Connection failed (CORS)" },
         { id := "c", ip := "c", status := NodeStatus.degraded,
           stats := some ⟨95, 40, 1024, 20, 2000⟩, version := "v0.8 Reinheim",
           gossipPort := 8001, pubkey := none, lastSeen := some 1,
           error := none }]).map statsCpu).sum := by
  constructor
  · decide
  · exact (claim_C4_aggregate _).2.1 (by decide)

/-- C5: for a poll whose metrics call succeeded, the status is `degraded`
iff `cpu_percent > 90` or `memory_percent > 95`, and `online` otherwise,
as a pure function of the returned metric values. -/
theorem claim_C5_degraded_iff (ip : String) (s : NodeStats)
    (pr : Settled PodsResponse) (now : ℕ) :
    ((fetchNodeData ip none (Settled.fulfilled s) pr now).status =
        NodeStatus.degraded ↔
      (s.cpu_percent > 90 ∨ s.memory_percent > 95)) ∧
    ((fetchNodeData ip none (Settled.fulfilled s) pr now).status =
        NodeStatus.online ↔
      ¬(s.cpu_percent > 90 ∨ s.memory_percent > 95)) := by
  have hst : (fetchNodeData ip none (Settled.fulfilled s) pr now).status =
      classifyStats (some s) := rfl
  rw [hst]
  simp only [classifyStats]
  by_cases h : s.cpu_percent > 90 ∨ s.memory_percent > 95
  · simp [h]
  · simp [h]

/-- C6 (code behavior at the failing input): with both calls failed —
both promises rejected — the settled path of `fetchNodeData` still stamps
`lastSeen` with the poll's `Date.now()` reading, so the timestamp is
present although no call succeeded, contradicting the claimed absence. -/
theorem claim_C6_code_behavior :
    (fetchNodeData "62.171.169.176" none (Settled.rejected none)
        (Settled.rejected (some "Connection refused")) 42).lastSeen =
      some 42 := by
  rfl

/-- C7 counterexample: the snapshot whose membership key is `ABC123`
passes the code's search predicate for the query `abc` and survives
`filteredNodes`, although the claimed case-sensitive substring criterion
on the raw strings rejects it. -/
theorem claim_C7_counterexample :
    specMatchesSearch "abc" nodeC7 = false ∧
    matchesSearch "abc" nodeC7 = true ∧
    filteredNodes [nodeC7] "abc" StatusFilter.all = [nodeC7] := by
  refine ⟨?_, ?_, ?_⟩ <;> decide

/-- C7 amended: a node passes `filteredNodes` iff it is in the snapshot,
the search text is a case-insensitive substring of its address or of its
membership key (both sides lowercased) — an absent key never matches
through the key clause — and its status passes the status filter: the
two predicates combine with logical AND. -/
theorem claim_C7_amended (nodes : List PNode) (q : String) (f : StatusFilter)
    (n : PNode) :
    (n ∈ filteredNodes nodes q f ↔
      n ∈ nodes ∧
        (strIncludes (strLower n.ip) (strLower q) = true ∨
          ∃ k, n.pubkey = some k ∧ strIncludes (strLower k) (strLower q) = true) ∧
        filterMatchesStatus f n.status = true) ∧
    (n.pubkey = none →
      matchesSearch q n = strIncludes (strLower n.ip) (strLower q)) := by
  constructor
  · rw [filteredNodes, List.mem_filter]
    cases hp : n.pubkey with
    | none => simp [matchesSearch, hp, and_assoc]
    | some k => simp [matchesSearch, hp, and_assoc]
  · intro h
    simp [matchesSearch, h]

/-- C7 amended witness: a key-less node's search match is decided by its
address alone. -/
theorem claim_C7_amended_witness :
    nodeC7b.pubkey = none ∧
      matchesSearch "97" nodeC7b = strIncludes (strLower nodeC7b.ip) (strLower "97") :=
  ⟨rfl, (claim_C7_amended [nodeC7b] "97" StatusFilter.all nodeC7b).2 rfl⟩

/-- C8: envelope validation of `rpcCall` has exactly three outcomes — the
input cases are exhaustive, a present protocol-level error field fails the
call with the remote message, an envelope with neither error nor result
fails with the protocol-violation message, and otherwise the typed result
is returned. -/
theorem claim_C8_envelope {T : Type} (data : RpcResponse T) :
    ((∃ e, data.error = some e) ∨ (data.error = none ∧ data.result = none) ∨
      (data.error = none ∧ ∃ v, data.result = some v)) ∧
    (∀ e : RpcError, data.error = some e →
      rpcHandleResponse data = RpcOutcome.thrown e.message) ∧
    (data.error = none → data.result = none →
      rpcHandleResponse data = RpcOutcome.thrown "No result in response") ∧
    (∀ v : T, data.error = none → data.result = some v →
      rpcHandleResponse data = RpcOutcome.ok v) := by
  refine ⟨?_, ?_, ?_, ?_⟩
  · cases he : data.error with
    | some e => exact Or.inl ⟨e, rfl⟩
    | none =>
      cases hr : data.result with
      | none => exact Or.inr (Or.inl ⟨rfl, rfl⟩)
      | some v => exact Or.inr (Or.inr ⟨rfl, v, rfl⟩)
  · intro e he
    simp [rpcHandleResponse, he]
  · intro he hr
    simp [rpcHandleResponse, he, hr]
  · intro v he hr
    simp [rpcHandleResponse, he, hr]

/-- C8 witness: an envelope carrying a protocol-level error fails with
the remote message. -/
theorem claim_C8_witness :
    (RpcResponse.mk "2.0" 1 (none : Option ℕ)
        (some (RpcError.mk (-32600) "Invalid request"))).error =
      some (RpcError.mk (-32600) "Invalid request") ∧
    rpcHandleResponse
        (RpcResponse.mk "2.0" 1 (none : Option ℕ)
          (some (RpcError.mk (-32600) "Invalid request"))) =
      RpcOutcome.thrown "Invalid request" :=
  ⟨rfl,
    (claim_C8_envelope
        (RpcResponse.mk "2.0" 1 (none : Option ℕ)
          (some (RpcError.mk (-32600) "Invalid request")))).2.1
      (RpcError.mk (-32600) "Invalid request") rfl⟩

/-- C9 counterexample: from the idle dashboard, a Refresh click followed
immediately by an interval tick leaves two polling rounds in flight — the
interval callback invokes `fetchData` unconditionally, so the trigger
arriving during the active round is neither dropped nor deferred. -/
theorem claim_C9_counterexample :
    (schedRun schedInit
      [PollTrigger.refreshClick, PollTrigger.intervalTick]).active = 2 := by
  decide

/-- C9 amended: only the explicit-request trigger is single-flight — a
Refresh click arriving while `isRefreshing` is set is dropped (the button
is disabled) — whereas an interval tick always starts a round at once,
even while one is in flight. -/
theorem claim_C9_amended (s : SchedState) :
    (s.isRefreshing = true → schedStep s PollTrigger.refreshClick = s) ∧
    (schedStep s PollTrigger.intervalTick).active = s.active + 1 := by
  constructor
  · intro h
    simp [schedStep, h]
  · rfl

/-- C9 amended witness: a click during an active round changes nothing. -/
theorem claim_C9_amended_witness :
    (SchedState.mk 1 true).isRefreshing = true ∧
      schedStep (SchedState.mk 1 true) PollTrigger.refreshClick =
        SchedState.mk 1 true :=
  ⟨rfl, (claim_C9_amended (SchedState.mk 1 true)).1 rfl⟩

/-- C10: every offline snapshot a polling round can produce — the
per-node fallback of the fan-in and the all-offline fallback of
`fetchData`'s catch — has absent stats, absent membership key, absent
timestamp and a non-empty error message.  The hypothesis `hf` records
that `fetchNodeData`'s own catch never runs: its try-body is
`Promise.allSettled` (which never rejects) followed by total field
accesses. -/
theorem claim_C10_offline_invariant (ips : List String)
    (fault : String → Option (Option String)) (sr : String → Settled NodeStats)
    (pr : String → Settled PodsResponse)
    (reject : String → Option (Option String)) (time : String → ℕ)
    (now : String → ℕ) (hf : ∀ ip, fault ip = none) :
    (∀ n ∈ fleetRound ips fault sr pr reject time now,
      n.status = NodeStatus.offline →
        n.stats = none ∧ n.pubkey = none ∧ n.lastSeen = none ∧
          ∃ e, n.error = some e ∧ e ≠ "") ∧
    (∀ n ∈ allOfflineFallback ips,
      n.status = NodeStatus.offline ∧ n.stats = none ∧ n.pubkey = none ∧
        n.lastSeen = none ∧ ∃ e, n.error = some e ∧ e ≠ "") := by
  constructor
  · intro n hn hoff
    induction ips with
    | nil => simp [fleetRound, nodeResults, promiseAllSettled] at hn
    | cons ip rest ih =>
      cases hr : reject ip with
      | none =>
        rw [fleetRound_cons_ok ip rest fault sr pr reject time now hr] at hn
        rcases List.mem_cons.mp hn with h | h
        · exfalso
          rw [hf ip] at h
          apply classifyStats_ne_offline (settledValue (sr ip))
          rw [← hoff, h]
          rfl
        · exact ih h
      | some r =>
        rw [fleetRound_cons_rejected ip rest fault sr pr reject time now r hr] at hn
        rcases List.mem_cons.mp hn with h | h
        · subst h
          exact ⟨rfl, rfl, rfl, "Connection failed (CORS)", rfl, by decide⟩
        · exact ih h
  · intro n hn
    rcases List.mem_map.mp hn with ⟨ip, _, h⟩
    subst h
    exact ⟨rfl, rfl, rfl, rfl, "Connection failed", rfl, by decide⟩

/-- C10 witness: a one-address round whose per-node task rejected yields
the offline fallback, which satisfies the invariant. -/
theorem claim_C10_witness :
    (∀ ip : String, (fun _ : String => (none : Option (Option String))) ip = none) ∧
    (corsOffline "173.249.7.61").status = NodeStatus.offline ∧
    ((corsOffline "173.249.7.61").stats = none ∧
      (corsOffline "173.249.7.61").pubkey = none ∧
      (corsOffline "173.249.7.61").lastSeen = none ∧
      ∃ e, (corsOffline "173.249.7.61").error = some e ∧ e ≠ "") :=
  ⟨fun _ => rfl, rfl,
    (claim_C10_offline_invariant ["173.249.7.61"] (fun _ => none)
        (fun _ => Settled.rejected none) (fun _ => Settled.rejected none)
        (fun _ => some none) (fun _ => 0) (fun _ => 0) (fun _ => rfl)).1
      (corsOffline "173.249.7.61") (by decide) rfl⟩
